import Mathlib

/-!
Verification of the movement-and-collision core of the coursework renderer
(`source/coursework.cpp`).

The original code works on `glm::vec3` with `float` components.  Every
constant appearing in the collision core (room bounds, camera radius 0.5,
object positions and scales, the speed constant 5.0 and the floor height
-4.0) is an exactly representable value, and the only arithmetic performed
is addition, subtraction, multiplication by 0.5, `min`/`max` and
comparisons, so we model components exactly by rational numbers.

The single non-rational operation of the source is
`glm::length(sphereCenter - closestPoint) < sphereRadius` in
`objectCollision` (line 95-97).  Since the length is `Real.sqrt` of the
squared distance and a square root is non-negative, the comparison
`sqrt d2 < r` holds exactly when `0 < r ∧ d2 < r ^ 2`; the executable
definition below uses that square-root-free form, and the theorem for the
sphere-box claim proves that it agrees with the real-valued
`Real.sqrt` formulation of the source on all inputs.
-/

/-- A 3-component vector, mirroring `glm::vec3` (exact rational model of
the float components). -/
structure Vec3 where
  x : ℚ
  y : ℚ
  z : ℚ
deriving DecidableEq, Repr

/-- Componentwise addition, mirroring `glm::vec3` addition. -/
def Vec3.add (a b : Vec3) : Vec3 := ⟨a.x + b.x, a.y + b.y, a.z + b.z⟩

/-- Componentwise subtraction, mirroring `glm::vec3` subtraction. -/
def Vec3.sub (a b : Vec3) : Vec3 := ⟨a.x - b.x, a.y - b.y, a.z - b.z⟩

/-- Scalar multiplication `s * v`, mirroring `float * glm::vec3`. -/
def Vec3.smul (s : ℚ) (v : Vec3) : Vec3 := ⟨s * v.x, s * v.y, s * v.z⟩

/-- The `Object` struct of the source (coursework.cpp lines 16-23): position,
rotation axis, scale, angle and a category name. -/
structure Object where
  position : Vec3
  rotation : Vec3
  scale : Vec3
  angle : ℚ
  name : String
deriving DecidableEq, Repr

/-- The `boxBound` struct of the source (lines 40-45): an axis-aligned box
given by six scalars. -/
structure boxBound where
  xMin : ℚ
  xMax : ℚ
  yMin : ℚ
  yMax : ℚ
  zMin : ℚ
  zMax : ℚ
deriving DecidableEq, Repr

/-- The six fixed room bounds `roomBounds[]` (lines 47-54): floor,
ceiling, back wall, front wall, left wall, right wall. -/
def roomBounds : List boxBound :=
  [ ⟨-5, 5, -5, -9/2, -5, 5⟩,       -- Floor
    ⟨-5, 5, 5/2, 3, -5, 5⟩,         -- Ceiling
    ⟨-5, 5, -9/2, 5/2, -5, -9/2⟩,   -- Back Wall
    ⟨-5, 5, -9/2, 5/2, 9/2, 5⟩,     -- Front Wall
    ⟨-5, -9/2, -9/2, 5/2, -5, 5⟩,   -- Left Wall
    ⟨9/2, 5, -9/2, 5/2, -5, 5⟩ ]    -- Right Wall

/-- The `cameraRadius` constant (line 57). -/
def cameraRadius : ℚ := 1/2

/-- The containment test of the room-bound loop body of `checkCollision`
(lines 63-65): all six comparisons, each inclusive (`>=` / `<=`). -/
def pointInBound (p : Vec3) (b : boxBound) : Bool :=
  decide (b.xMin ≤ p.x ∧ p.x ≤ b.xMax ∧
          b.yMin ≤ p.y ∧ p.y ≤ b.yMax ∧
          b.zMin ≤ p.z ∧ p.z ≤ b.zMax)

/-- The closest point of the (axis-aligned, scaled) box to the sphere
center, computed per axis as `max(lo, min(c, hi))` exactly as in
`objectCollision` (lines 85-92), with `halfSize = boxScale * 0.5`. -/
def closestPoint (sphereCenter boxCenter boxScale : Vec3) : Vec3 :=
  let hx := boxScale.x * (1/2)
  let hy := boxScale.y * (1/2)
  let hz := boxScale.z * (1/2)
  ⟨ max (boxCenter.x - hx) (min sphereCenter.x (boxCenter.x + hx)),
    max (boxCenter.y - hy) (min sphereCenter.y (boxCenter.y + hy)),
    max (boxCenter.z - hz) (min sphereCenter.z (boxCenter.z + hz)) ⟩

/-- Squared Euclidean distance between two points; `glm::length` of the
source (line 95) is the real square root of this quantity. -/
def sqDist (a b : Vec3) : ℚ :=
  (a.x - b.x) ^ 2 + (a.y - b.y) ^ 2 + (a.z - b.z) ^ 2

/-- The `objectCollision` predicate (lines 83-98).  The source returns
`glm::length(sphereCenter - closestPoint) < sphereRadius`; since the
length is the non-negative square root of the squared distance, this
equals `0 < sphereRadius ∧ sqDist < sphereRadius ^ 2` (proved against the
`Real.sqrt` formulation in the sphere-box theorem below). -/
def objectCollision (sphereCenter : Vec3) (sphereRadius : ℚ)
    (boxCenter boxScale : Vec3) : Bool :=
  decide (0 < sphereRadius ∧
    sqDist sphereCenter (closestPoint sphereCenter boxCenter boxScale) <
      sphereRadius ^ 2)

/-- The cube test applied in the object loop of `checkCollision`
(lines 71-77): only objects named "cube" are tested, with the fixed
camera radius. -/
def cubeHit (position : Vec3) (obj : Object) : Bool :=
  obj.name == "cube" &&
    objectCollision position cameraRadius obj.position obj.scale

/-- The `checkCollision` predicate (lines 59-80): true when any room bound contains the
position, or any object named "cube" passes the sphere-box test. -/
def checkCollision (position : Vec3) (objects : List Object) : Bool :=
  roomBounds.any (pointInBound position) || objects.any (cubeHit position)

/-- The eleven cube positions of `positions[]` (lines 201-213). -/
def cubePositions : List Vec3 :=
  [ ⟨-3, -9/2, -3⟩, ⟨-3/2, -9/2, -2⟩, ⟨0, -9/2, -3/2⟩, ⟨3/2, -9/2, -1⟩,
    ⟨3, -9/2, -1/2⟩, ⟨-3, -9/2, 1/2⟩, ⟨-3/2, -9/2, 1⟩, ⟨0, -9/2, 3/2⟩,
    ⟨3/2, -9/2, 2⟩, ⟨-1, -9/2, 0⟩, ⟨3, -9/2, 5/2⟩ ]

/-- The Scene Registry: the `objects` vector assembled in `main`
(lines 216-311): eleven cubes (scale 0.3, rotation (1,1,1), angle 0),
then the floor, the ceiling and four wall planes in that order. -/
def sceneObjects : List Object :=
  cubePositions.map (fun p => ⟨p, ⟨1, 1, 1⟩, ⟨3/10, 3/10, 3/10⟩, 0, "cube"⟩) ++
  [ ⟨⟨0, -5, 0⟩, ⟨1, 0, 0⟩, ⟨1/2, 1/2, 1/2⟩, 0, "floor"⟩,
    ⟨⟨0, 11/4, 0⟩, ⟨1, 0, 0⟩, ⟨1/2, 1/2, 1/2⟩, 180, "ceiling"⟩,
    ⟨⟨0, -1/2, -5⟩, ⟨1, 0, 0⟩, ⟨1/2, 1/2, 1/2⟩, 90, "wall"⟩,
    ⟨⟨5, -1/2, 0⟩, ⟨0, 0, 1⟩, ⟨1/2, 1/2, 1/2⟩, 90, "wall"⟩,
    ⟨⟨-5, -1/2, 0⟩, ⟨0, 0, 1⟩, ⟨1/2, 1/2, 1/2⟩, -90, "wall"⟩,
    ⟨⟨0, -1/2, 5⟩, ⟨1, 0, 0⟩, ⟨1/2, 1/2, 1/2⟩, -90, "wall"⟩ ]

/-- Initial camera eye position, from the `Camera` construction
(line 36): `glm::vec3(0.0f, -4.0f, 4.5f)`. -/
def cameraEyeInit : Vec3 := ⟨0, -4, 9/2⟩

/-- The candidate position built by `keyboardInput` (lines 389-405)
before the collision check: starting from the current eye, each pressed
key among W/S/A/D adds or subtracts `5 * deltaTime` times the camera's
front or right vector, and then the y coordinate is forced to `-4.0`
(line 405) unconditionally. -/
def candidatePos (eye front right : Vec3) (w s a d : Bool) (dt : ℚ) : Vec3 :=
  let e1 := if w then Vec3.add eye (Vec3.smul (5 * dt) front) else eye
  let e2 := if s then Vec3.sub e1 (Vec3.smul (5 * dt) front) else e1
  let e3 := if a then Vec3.sub e2 (Vec3.smul (5 * dt) right) else e2
  let e4 := if d then Vec3.add e3 (Vec3.smul (5 * dt) right) else e3
  ⟨e4.x, -4, e4.z⟩

/-- One run of the movement part of `keyboardInput` (lines 384-412):
store the original position, apply the pressed-key displacements, force
`eye.y = -4.0`, then revert to the original position when
`checkCollision` holds on the result. -/
def keyboardInput (eye front right : Vec3) (w s a d : Bool) (dt : ℚ)
    (objects : List Object) : Vec3 :=
  let originalPos := eye
  let c := candidatePos eye front right w s a d dt
  if checkCollision c objects then originalPos else c

/-- The per-frame data consumed by one run of the keyboard-movement step:
the camera basis vectors (as updated by the mouse handler), the four key
states, the frame's `deltaTime` and the object list passed to
`keyboardInput` from the render loop (line 322). -/
structure FrameInput where
  front : Vec3
  right : Vec3
  w : Bool
  s : Bool
  a : Bool
  d : Bool
  dt : ℚ
  objects : List Object

/-- The camera eye after running the keyboard-movement step once per
element of `inputs`, starting from `eye`. -/
def runFrames (eye : Vec3) (inputs : List FrameInput) : Vec3 :=
  inputs.foldl
    (fun e i => keyboardInput e i.front i.right i.w i.s i.a i.d i.dt i.objects)
    eye

/-! ## Helper lemmas -/

/-- The square-root-free form of `objectCollision` agrees on every input
with the source's comparison `glm::length(sphereCenter - closestPoint) <
sphereRadius`, read over the reals. -/
lemma objectCollision_iff_sqrt_lt (sc : Vec3) (r : ℚ) (bc bs : Vec3) :
    objectCollision sc r bc bs = true ↔
      Real.sqrt ((sqDist sc (closestPoint sc bc bs) : ℚ) : ℝ) < (r : ℝ) := by
  constructor
  · intro h
    simp only [objectCollision, decide_eq_true_eq] at h
    obtain ⟨hr, hlt⟩ := h
    have hr2 : (0 : ℝ) < (r : ℝ) := by exact_mod_cast hr
    rw [Real.sqrt_lt' hr2]
    exact_mod_cast hlt
  · intro h
    have hr2 : (0 : ℝ) < (r : ℝ) := lt_of_le_of_lt (Real.sqrt_nonneg _) h
    simp only [objectCollision, decide_eq_true_eq]
    refine ⟨by exact_mod_cast hr2, ?_⟩
    have hlt := (Real.sqrt_lt' hr2).mp h
    exact_mod_cast hlt

/-- One keyboard-movement step keeps `eye.y = -4` whenever it already
held: the candidate has `y = -4` by construction, and a revert restores
the previous eye. -/
lemma y_locked_step (eye front right : Vec3) (w s a d : Bool) (dt : ℚ)
    (objects : List Object) (h : eye.y = -4) :
    (keyboardInput eye front right w s a d dt objects).y = -4 := by
  unfold keyboardInput
  dsimp only
  split
  · exact h
  · rfl

/-- The vertical lock is preserved along any list of frames. -/
lemma y_locked_run (inputs : List FrameInput) :
    ∀ (eye : Vec3), eye.y = -4 → (runFrames eye inputs).y = -4 := by
  induction inputs with
  | nil => intro eye h; exact h
  | cons i is ih =>
      intro eye h
      exact ih _ (y_locked_step eye i.front i.right i.w i.s i.a i.d i.dt
        i.objects h)

/-- A point contained in a member of `roomBounds` makes `checkCollision`
true, whatever the object list. -/
lemma checkCollision_of_bound (p : Vec3) (objects : List Object)
    (b : boxBound) (hb : b ∈ roomBounds) (hp : pointInBound p b = true) :
    checkCollision p objects = true := by
  simp only [checkCollision, Bool.or_eq_true, List.any_eq_true]
  exact Or.inl ⟨b, hb, hp⟩

/-- The floor bound is the first entry of `roomBounds`. -/
lemma floor_mem_roomBounds : (⟨-5, 5, -5, -9/2, -5, 5⟩ : boxBound) ∈ roomBounds := by
  simp [roomBounds]

/-! ## Claim theorems -/

/-- C1: `checkCollision` returns true iff the position lies in at least
one of the six room bounds or the sphere-box test succeeds against at
least one object named "cube" (objects of any other category are never
tested); moreover every cube entry of the Scene Registry yields a
collision at its own center. -/
theorem checkCollision_characterization :
    (∀ (position : Vec3) (objects : List Object),
        checkCollision position objects = true ↔
          ((∃ b ∈ roomBounds, pointInBound position b = true) ∨
           (∃ obj ∈ objects, obj.name = "cube" ∧
              objectCollision position cameraRadius obj.position obj.scale
                = true))) ∧
    (∀ obj ∈ sceneObjects, obj.name = "cube" →
        checkCollision obj.position sceneObjects = true) := by
  constructor
  · intro position objects
    simp [checkCollision, cubeHit, List.any_eq_true, Bool.and_eq_true,
      and_assoc]
  · intro obj hobj hname
    rw [sceneObjects, List.mem_append] at hobj
    rcases hobj with hm | ht
    · obtain ⟨p, hp, rfl⟩ := List.mem_map.mp hm
      refine checkCollision_of_bound _ _ _ floor_mem_roomBounds ?_
      simp only [cubePositions] at hp
      fin_cases hp <;> norm_num [pointInBound]
    · simp only [List.mem_cons, List.not_mem_nil, or_false] at ht
      rcases ht with rfl | rfl | rfl | rfl | rfl | rfl <;> simp at hname

/-- Witness for C1 at the first Scene Registry cube: it is a member of
the registry, is named "cube", and `checkCollision` holds at its
center. -/
theorem checkCollision_characterization_witness :
    (⟨⟨-3, -9/2, -3⟩, ⟨1, 1, 1⟩, ⟨3/10, 3/10, 3/10⟩, 0, "cube"⟩ : Object)
        ∈ sceneObjects ∧
    checkCollision ⟨-3, -9/2, -3⟩ sceneObjects = true :=
  ⟨by simp [sceneObjects, cubePositions],
   checkCollision_characterization.2
     ⟨⟨-3, -9/2, -3⟩, ⟨1, 1, 1⟩, ⟨3/10, 3/10, 3/10⟩, 0, "cube"⟩
     (by simp [sceneObjects, cubePositions]) rfl⟩

/-- C2: the sphere-box predicate holds exactly when the Euclidean
distance from the sphere center to the per-axis clamped closest point is
strictly below the radius; a sphere exactly tangent (distance equal to
the radius) does not collide. -/
theorem objectCollision_sqrt_characterization :
    (∀ (sphereCenter : Vec3) (sphereRadius : ℚ) (boxCenter boxScale : Vec3),
        objectCollision sphereCenter sphereRadius boxCenter boxScale = true ↔
          Real.sqrt ((sqDist sphereCenter
              (closestPoint sphereCenter boxCenter boxScale) : ℚ) : ℝ) <
            (sphereRadius : ℝ)) ∧
    (∀ (sphereCenter : Vec3) (sphereRadius : ℚ) (boxCenter boxScale : Vec3),
        Real.sqrt ((sqDist sphereCenter
            (closestPoint sphereCenter boxCenter boxScale) : ℚ) : ℝ) =
          (sphereRadius : ℝ) →
        objectCollision sphereCenter sphereRadius boxCenter boxScale
          = false) := by
  refine ⟨objectCollision_iff_sqrt_lt, ?_⟩
  intro sc r bc bs h
  refine Bool.eq_false_iff.mpr ?_
  intro htrue
  have hlt := (objectCollision_iff_sqrt_lt sc r bc bs).mp htrue
  rw [h] at hlt
  exact lt_irrefl _ hlt

/-- Witness for C2: a sphere of radius 1 exactly tangent to the box of
scale (2,2,2) at the origin, touched from (2,0,0): the distance equals
the radius and the predicate is false. -/
theorem objectCollision_sqrt_characterization_witness :
    Real.sqrt ((sqDist ⟨2, 0, 0⟩
        (closestPoint ⟨2, 0, 0⟩ ⟨0, 0, 0⟩ ⟨2, 2, 2⟩) : ℚ) : ℝ)
      = ((1 : ℚ) : ℝ) ∧
    objectCollision ⟨2, 0, 0⟩ 1 ⟨0, 0, 0⟩ ⟨2, 2, 2⟩ = false := by
  have hq : sqDist ⟨2, 0, 0⟩ (closestPoint ⟨2, 0, 0⟩ ⟨0, 0, 0⟩ ⟨2, 2, 2⟩)
      = 1 := by
    norm_num [sqDist, closestPoint, min_def, max_def]
  have hs : Real.sqrt ((sqDist ⟨2, 0, 0⟩
      (closestPoint ⟨2, 0, 0⟩ ⟨0, 0, 0⟩ ⟨2, 2, 2⟩) : ℚ) : ℝ)
      = ((1 : ℚ) : ℝ) := by
    rw [hq]
    push_cast
    exact Real.sqrt_one
  exact ⟨hs, objectCollision_sqrt_characterization.2 _ _ _ _ hs⟩

/-- C7: the sphere-box predicate holds for a sphere of radius 0.5 whose
center coincides with the unit box's center, and fails for a center far
away at (10,10,10). -/
theorem objectCollision_examples :
    objectCollision ⟨0, 0, 0⟩ (1/2) ⟨0, 0, 0⟩ ⟨1, 1, 1⟩ = true ∧
    objectCollision ⟨10, 10, 10⟩ (1/2) ⟨0, 0, 0⟩ ⟨1, 1, 1⟩ = false := by
  constructor <;>
    norm_num [objectCollision, sqDist, closestPoint, min_def, max_def,
      decide_eq_true_eq, decide_eq_false_iff_not]

/-- C10: the sphere-box predicate is monotone in the sphere radius: a
collision at radius r stays a collision at any larger radius. -/
theorem objectCollision_radius_mono :
    ∀ (sphereCenter : Vec3) (r r2 : ℚ) (boxCenter boxScale : Vec3),
      r ≤ r2 →
      objectCollision sphereCenter r boxCenter boxScale = true →
      objectCollision sphereCenter r2 boxCenter boxScale = true := by
  intro sc r r2 bc bs hle h
  simp only [objectCollision, decide_eq_true_eq] at h ⊢
  obtain ⟨hr, hd⟩ := h
  exact ⟨lt_of_lt_of_le hr hle,
    lt_of_lt_of_le hd (pow_le_pow_left₀ (le_of_lt hr) hle 2)⟩

/-- Witness for C10: a radius-0.5 collision at the unit box's center
stays a collision at radius 1. -/
theorem objectCollision_radius_mono_witness :
    (1/2 : ℚ) ≤ 1 ∧
    objectCollision ⟨0, 0, 0⟩ (1/2) ⟨0, 0, 0⟩ ⟨1, 1, 1⟩ = true ∧
    objectCollision ⟨0, 0, 0⟩ 1 ⟨0, 0, 0⟩ ⟨1, 1, 1⟩ = true := by
  have h1 : (1/2 : ℚ) ≤ 1 := by norm_num
  have h2 : objectCollision ⟨0, 0, 0⟩ (1/2) ⟨0, 0, 0⟩ ⟨1, 1, 1⟩ = true := by
    norm_num [objectCollision, sqDist, closestPoint, min_def, max_def,
      decide_eq_true_eq]
  exact ⟨h1, h2, objectCollision_radius_mono _ _ _ _ _ h1 h2⟩

/-- C3: per-frame movement is all-or-nothing: when the combined
candidate position (all pressed-key displacements, y forced to -4)
collides, the eye is restored exactly to its pre-frame position; when it
does not collide, the combined candidate is kept. -/
theorem keyboardInput_all_or_nothing :
    ∀ (eye front right : Vec3) (w s a d : Bool) (dt : ℚ)
      (objects : List Object),
      (checkCollision (candidatePos eye front right w s a d dt) objects
          = true →
        keyboardInput eye front right w s a d dt objects = eye) ∧
      (checkCollision (candidatePos eye front right w s a d dt) objects
          = false →
        keyboardInput eye front right w s a d dt objects =
          candidatePos eye front right w s a d dt) := by
  intro eye front right w s a d dt objects
  unfold keyboardInput
  constructor <;> intro h <;> simp [h]

/-- Witness for C3: from the initial eye, a zero-displacement frame
(dt = 0) collides (the initial eye lies on the front wall bound) and the
eye is kept; a forward frame with dt = 1 does not collide and the
combined candidate is committed. -/
theorem keyboardInput_all_or_nothing_witness :
    (checkCollision (candidatePos ⟨0, -4, 9/2⟩ ⟨0, 0, -1⟩ ⟨1, 0, 0⟩ true
        false false false 0) [] = true ∧
      keyboardInput ⟨0, -4, 9/2⟩ ⟨0, 0, -1⟩ ⟨1, 0, 0⟩ true false false
        false 0 [] = ⟨0, -4, 9/2⟩) ∧
    (checkCollision (candidatePos ⟨0, -4, 9/2⟩ ⟨0, 0, -1⟩ ⟨1, 0, 0⟩ true
        false false false 1) [] = false ∧
      keyboardInput ⟨0, -4, 9/2⟩ ⟨0, 0, -1⟩ ⟨1, 0, 0⟩ true false false
        false 1 [] =
        candidatePos ⟨0, -4, 9/2⟩ ⟨0, 0, -1⟩ ⟨1, 0, 0⟩ true false false
          false 1) := by
  have ht : checkCollision (candidatePos ⟨0, -4, 9/2⟩ ⟨0, 0, -1⟩ ⟨1, 0, 0⟩
      true false false false 0) [] = true := by
    norm_num [checkCollision, roomBounds, pointInBound, candidatePos,
      Vec3.add, Vec3.smul, List.any_cons, List.any_nil]
  have hf : checkCollision (candidatePos ⟨0, -4, 9/2⟩ ⟨0, 0, -1⟩ ⟨1, 0, 0⟩
      true false false false 1) [] = false := by
    norm_num [checkCollision, roomBounds, pointInBound, candidatePos,
      Vec3.add, Vec3.smul, List.any_cons, List.any_nil]
  exact ⟨⟨ht, (keyboardInput_all_or_nothing _ _ _ _ _ _ _ _ _).1 ht⟩,
         ⟨hf, (keyboardInput_all_or_nothing _ _ _ _ _ _ _ _ _).2 hf⟩⟩

/-- C4: along any sequence of keyboard-movement frames starting from the
initial eye (0, -4, 4.5), the eye's y coordinate always equals the fixed
floor height -4, whether each frame's candidate was accepted or
reverted. -/
theorem runFrames_y_locked :
    ∀ (inputs : List FrameInput), (runFrames cameraEyeInit inputs).y = -4 :=
  fun inputs => y_locked_run inputs cameraEyeInit rfl

/-- C5 counterexample: with the camera at (0,-4,4.5), front (0,0,-1),
speed 5 and dt 1, the candidate lands at (0,-4,-0.5), which lies in no
room bound; `checkCollision` is false on it against the Scene Registry,
and the eye is changed by the tick (the move is committed, not
discarded). -/
theorem scenario_forward_counterexample :
    candidatePos ⟨0, -4, 9/2⟩ ⟨0, 0, -1⟩ ⟨1, 0, 0⟩ true false false false 1
        = ⟨0, -4, -1/2⟩ ∧
    checkCollision ⟨0, -4, -1/2⟩ sceneObjects = false ∧
    keyboardInput ⟨0, -4, 9/2⟩ ⟨0, 0, -1⟩ ⟨1, 0, 0⟩ true false false false
        1 sceneObjects = ⟨0, -4, -1/2⟩ ∧
    (⟨0, -4, -1/2⟩ : Vec3) ≠ ⟨0, -4, 9/2⟩ := by
  have hc : candidatePos ⟨0, -4, 9/2⟩ ⟨0, 0, -1⟩ ⟨1, 0, 0⟩ true false false
      false 1 = ⟨0, -4, -1/2⟩ := by
    norm_num [candidatePos, Vec3.add, Vec3.smul]
  have hf : checkCollision ⟨0, -4, -1/2⟩ sceneObjects = false := by
    norm_num [checkCollision, roomBounds, pointInBound, sceneObjects,
      cubePositions, cubeHit, objectCollision, closestPoint, sqDist,
      cameraRadius, List.any_cons, List.any_nil, min_def, max_def,
      decide_eq_true_eq, decide_eq_false_iff_not]
  refine ⟨hc, hf, ?_, ?_⟩
  · simp [keyboardInput, hc, hf]
  · intro h
    exact absurd (congrArg Vec3.z h) (by norm_num)

/-- C5 amended: with the camera at (0,-4,4.5), a forward move along
front (0,0,-1) with speed 5 and dt 1 lands the candidate at (0,-4,-0.5)
in the open room interior, `checkCollision` returns false on it, the
frame driver commits the move, and the eye after the tick is
(0,-4,-0.5). -/
theorem scenario_forward_amended :
    checkCollision (candidatePos ⟨0, -4, 9/2⟩ ⟨0, 0, -1⟩ ⟨1, 0, 0⟩ true
        false false false 1) sceneObjects = false ∧
    keyboardInput ⟨0, -4, 9/2⟩ ⟨0, 0, -1⟩ ⟨1, 0, 0⟩ true false false false
        1 sceneObjects = ⟨0, -4, -1/2⟩ := by
  have hc : candidatePos ⟨0, -4, 9/2⟩ ⟨0, 0, -1⟩ ⟨1, 0, 0⟩ true false false
      false 1 = ⟨0, -4, -1/2⟩ := by
    norm_num [candidatePos, Vec3.add, Vec3.smul]
  have hf : checkCollision ⟨0, -4, -1/2⟩ sceneObjects = false := by
    norm_num [checkCollision, roomBounds, pointInBound, sceneObjects,
      cubePositions, cubeHit, objectCollision, closestPoint, sqDist,
      cameraRadius, List.any_cons, List.any_nil, min_def, max_def,
      decide_eq_true_eq, decide_eq_false_iff_not]
  refine ⟨by rw [hc]; exact hf, ?_⟩
  simp [keyboardInput, hc, hf]

/-- C6: the room-bound test is inclusive on all six comparisons: any
position satisfying the six inequalities of some room bound (faces
included) makes `checkCollision` true for every object list, while the
interior position (0,0,0) is in no bound, so `checkCollision` with an
empty object list is false there. -/
theorem roomBounds_inclusive :
    (∀ (p : Vec3) (objects : List Object) (b : boxBound), b ∈ roomBounds →
        b.xMin ≤ p.x → p.x ≤ b.xMax → b.yMin ≤ p.y → p.y ≤ b.yMax →
        b.zMin ≤ p.z → p.z ≤ b.zMax →
        checkCollision p objects = true) ∧
    checkCollision ⟨0, 0, 0⟩ [] = false := by
  constructor
  · intro p objects b hb h1 h2 h3 h4 h5 h6
    refine checkCollision_of_bound p objects b hb ?_
    simp only [pointInBound, decide_eq_true_eq]
    exact ⟨h1, h2, h3, h4, h5, h6⟩
  · norm_num [checkCollision, roomBounds, pointInBound, List.any_cons,
      List.any_nil]

/-- Witness for C6 at (5,0,0), a point exactly on the right wall's
outer face (x = xMax = 5): membership of the right-wall bound and the
resulting collision. -/
theorem roomBounds_inclusive_witness :
    ((⟨9/2, 5, -9/2, 5/2, -5, 5⟩ : boxBound) ∈ roomBounds) ∧
    checkCollision ⟨5, 0, 0⟩ [] = true := by
  have hb : (⟨9/2, 5, -9/2, 5/2, -5, 5⟩ : boxBound) ∈ roomBounds := by
    simp [roomBounds]
  refine ⟨hb, roomBounds_inclusive.1 ⟨5, 0, 0⟩ [] _ hb ?_ ?_ ?_ ?_ ?_ ?_⟩ <;>
    norm_num

/-- C8: the initial camera eye (0,-4,4.5) already collides with the
front wall bound, whose zMin is exactly 4.5, even with no objects: the
session starts in a state the collision predicate classifies as
colliding. -/
theorem checkCollision_initial_eye :
    checkCollision cameraEyeInit [] = true ∧
    pointInBound cameraEyeInit ⟨-5, 5, -9/2, 5/2, 9/2, 5⟩ = true ∧
    ((⟨-5, 5, -9/2, 5/2, 9/2, 5⟩ : boxBound) ∈ roomBounds) ∧
    (⟨-5, 5, -9/2, 5/2, 9/2, 5⟩ : boxBound).zMin = cameraEyeInit.z := by
  refine ⟨?_, ?_, ?_, ?_⟩
  · norm_num [checkCollision, cameraEyeInit, roomBounds, pointInBound,
      List.any_cons, List.any_nil]
  · norm_num [pointInBound, cameraEyeInit]
  · simp [roomBounds]
  · norm_num [cameraEyeInit]

/-- C9: the keyboard-movement candidate always has y = -4, which lies in
neither the floor bound's y range [-5,-4.5] nor the ceiling bound's
[2.5,3]; hence `checkCollision` on the candidate reduces to the four
wall bounds (entries 3-6 of `roomBounds`) and the cube objects, so the
floor and ceiling bounds can never cause a rejected keyboard move. -/
theorem candidate_avoids_floor_ceiling :
    ∀ (eye front right : Vec3) (w s a d : Bool) (dt : ℚ)
      (objects : List Object),
      pointInBound (candidatePos eye front right w s a d dt)
          ⟨-5, 5, -5, -9/2, -5, 5⟩ = false ∧
      pointInBound (candidatePos eye front right w s a d dt)
          ⟨-5, 5, 5/2, 3, -5, 5⟩ = false ∧
      checkCollision (candidatePos eye front right w s a d dt) objects =
        (([ ⟨-5, 5, -9/2, 5/2, -5, -9/2⟩, ⟨-5, 5, -9/2, 5/2, 9/2, 5⟩,
            ⟨-5, -9/2, -9/2, 5/2, -5, 5⟩, ⟨9/2, 5, -9/2, 5/2, -5, 5⟩ ]
              : List boxBound).any
            (pointInBound (candidatePos eye front right w s a d dt)) ||
          objects.any (cubeHit (candidatePos eye front right w s a d dt))) := by
  intro eye front right w s a d dt objects
  have hy : (candidatePos eye front right w s a d dt).y = -4 := rfl
  have hfloor : pointInBound (candidatePos eye front right w s a d dt)
      ⟨-5, 5, -5, -9/2, -5, 5⟩ = false := by
    simp only [pointInBound, decide_eq_false_iff_not]
    rintro ⟨-, -, -, h, -⟩
    rw [hy] at h
    norm_num at h
  have hceil : pointInBound (candidatePos eye front right w s a d dt)
      ⟨-5, 5, 5/2, 3, -5, 5⟩ = false := by
    simp only [pointInBound, decide_eq_false_iff_not]
    rintro ⟨-, -, h, -⟩
    rw [hy] at h
    norm_num at h
  refine ⟨hfloor, hceil, ?_⟩
  simp only [checkCollision, roomBounds, List.any_cons, List.any_nil,
    hfloor, hceil, Bool.false_or, Bool.or_false]
